import Mathlib

/-!
Verification of the IntelliFlow API gateway authorization core
(backend/api-gateway/src) against its specification.

The development shallowly embeds the TypeScript sources:
config/index.ts (startup configuration and its validation),
services/descope.service.ts (DescopeService.validateToken and
getMockClaims, together with the contract of the jose library calls it
makes), and middleware/auth.middleware.ts (authMiddleware and the public
path list).  The spec's Scope Enforcer lives in the backend agents, whose
sources are not part of the gateway tree; it is modelled from the spec
where a claim needs it.
-/

namespace IntelliFlow

/-- Embeds the relevant fields of the config object in config/index.ts.
An unset DESCOPE_PROJECT_ID environment variable yields the empty string
(the TypeScript default is the empty string), and nodeEnv defaults to
the string for development when NODE_ENV is unset. -/
structure Config where
  descopeProjectId : String
  nodeEnv : String
deriving Repr, DecidableEq

/-- Embeds the startup validation block at the bottom of config/index.ts:
the process exits with an error exactly when the Descope project id is
empty and nodeEnv is exactly the production string. -/
def startupConfigFatal (cfg : Config) : Bool :=
  cfg.descopeProjectId = "" && cfg.nodeEnv = "production"

/-- The decoded JWT payload as the service reads it: each field is
optional, mirroring the untyped JS payload object.  scopes and
permissions are string arrays, scope is a single space-delimited
string. -/
structure Payload where
  sub : Option String := none
  email : Option String := none
  name : Option String := none
  scopes : Option (List String) := none
  scope : Option String := none
  permissions : Option (List String) := none
  exp : Option Int := none
  iat : Option Int := none
  iss : Option String := none
  aud : Option String := none
deriving Repr, DecidableEq

/-- Abstract view of a raw bearer token after parsing: whether the
three-segment envelope is well formed, whether its signature verifies
under the issuer's published keys, and the decoded payload. -/
structure Token where
  wellFormed : Bool
  sigValid : Bool
  payload : Payload
deriving Repr, DecidableEq

/-- The verification environment: whether the remote JWKS fetch
succeeds (keysAvailable) and the parsing oracle taking a raw token
string to its structural view. -/
structure Env where
  keysAvailable : Bool
  parse : String → Token

/-- The failure cases of the jose library calls made by validateToken. -/
inductive JoseError
  | malformedToken
  | keyFetchFailed
  | signatureInvalid
  | issuerMismatch
  | audienceMismatch
  | expired
deriving Repr, DecidableEq

/-- The error message attached to each jose failure, following the
messages of the jose library (the key-fetch message stands for the
network-dependent fetch error text). -/
def errMsg : JoseError → String
  | .malformedToken => "Invalid Compact JWS"
  | .keyFetchFailed => "JWKS fetch failed"
  | .signatureInvalid => "signature verification failed"
  | .issuerMismatch => "unexpected \"iss\" claim value"
  | .audienceMismatch => "unexpected \"aud\" claim value"
  | .expired => "\"exp\" claim timestamp check failed"

/-- The exp claim check of jose: a present exp at or before now is
expired; a token without exp passes. -/
def checkExp (p : Payload) (now : Int) : Except JoseError Payload :=
  match p.exp with
  | some e => if e ≤ now then .error .expired else .ok p
  | none => .ok p

/-- The checks jose.jwtVerify performs on an already-parsed token, in
jose's order: envelope well-formedness, key availability through the
remote JWKS, signature verification, the iss claim against the issuer
option, the aud claim against the audience option, and finally the exp
claim against the current time. -/
def verifyParsed (keysAvailable : Bool) (tok : Token)
    (issuer audience : String) (now : Int) : Except JoseError Payload :=
  if tok.wellFormed = false then .error .malformedToken
  else if keysAvailable = false then .error .keyFetchFailed
  else if tok.sigValid = false then .error .signatureInvalid
  else if tok.payload.iss ≠ some issuer then .error .issuerMismatch
  else if tok.payload.aud ≠ some audience then .error .audienceMismatch
  else checkExp tok.payload now

/-- Models the contract of jose.jwtVerify as called in
descope.service.ts with issuer and audience options: parse the raw
token and run the verification checks in jose's order. -/
def jwtVerify (env : Env) (raw issuer audience : String) (now : Int) :
    Except JoseError Payload :=
  verifyParsed env.keysAvailable (env.parse raw) issuer audience now

/-- Character-level model of the JS string split on a single space
character, as in scope.split in descope.service.ts. -/
def splitSpace (s : String) : List String :=
  (s.data.splitOn ' ').map String.mk

/-- The space-delimited wire encoding of a list of scope values: the
values joined by single spaces (the form the scope claim carries). -/
def joinSpace (l : List String) : String :=
  String.mk (List.intercalate [' '] (l.map String.data))

/-- Embeds the scope-extraction block of validateToken: take
payload.scopes verbatim when present (JS arrays are truthy even when
empty), else split payload.scope on spaces when it is a nonempty string
(the empty string is falsy in JS), else take payload.permissions
verbatim, else the empty list. -/
def extractScopes (p : Payload) : List String :=
  match p.scopes with
  | some l => l
  | none =>
    match p.scope with
    | some s =>
      if s = "" then
        match p.permissions with
        | some l => l
        | none => []
      else splitSpace s
    | none =>
      match p.permissions with
      | some l => l
      | none => []

/-- The TokenClaims record returned by validateToken. -/
structure TokenClaims where
  sub : String
  email : Option String
  name : Option String
  scopes : List String
  exp : Int
  iat : Int
  iss : String
  aud : Option String
deriving Repr, DecidableEq

/-- Embeds DescopeService.getMockClaims; the now argument stands for
the current epoch-seconds clock read. -/
def getMockClaims (now : Int) : TokenClaims :=
  { sub := "dev_user_123"
    email := some "dev@intelliflow.local"
    name := some "Development User"
    scopes := ["email.read", "email.summarize", "calendar.read", "calendar.write"]
    exp := now + 3600
    iat := now
    iss := "intelliflow-dev"
    aud := none }

/-- The issuer string validateToken passes to jose, built from the
project id. -/
def descopeIssuer (cfg : Config) : String :=
  "https://api.descope.com/" ++ cfg.descopeProjectId

/-- The claims object validateToken builds from a verified payload:
missing sub and iss default to the empty string, missing exp and iat
default to zero, and the scope list comes from extractScopes. -/
def claimsOf (p : Payload) : TokenClaims :=
  { sub := p.sub.getD ""
    email := p.email
    name := p.name
    scopes := extractScopes p
    exp := p.exp.getD 0
    iat := p.iat.getD 0
    iss := p.iss.getD ""
    aud := p.aud }

/-- Embeds DescopeService.validateToken: when the project id is empty
(JS falsy) or nodeEnv is the development string, return the mock claims
for any input token; otherwise verify through jose with the Descope
issuer and the project id as audience, and either build the claims or
rethrow the jose failure wrapped in the validation-failed message. -/
def validateToken (cfg : Config) (env : Env) (raw : String) (now : Int) :
    Except String TokenClaims :=
  if cfg.descopeProjectId = "" ∨ cfg.nodeEnv = "development" then
    .ok (getMockClaims now)
  else
    match jwtVerify env raw (descopeIssuer cfg) cfg.descopeProjectId now with
    | .ok p => .ok (claimsOf p)
    | .error e => .error ("Token validation failed: " ++ errMsg e)

/-- The list of paths exempt from authentication in
auth.middleware.ts. -/
def PUBLIC_PATHS : List String :=
  ["/", "/health", "/api/auth/validate", "/api/auth/refresh"]

/-- The user record authMiddleware attaches to the request. -/
structure AuthUser where
  id : String
  email : Option String
  scopes : List String
deriving Repr, DecidableEq

/-- The observable outcome of one authMiddleware run: pass through on a
public path, reject with the missing-token body, reject with the
unauthorized body carrying the failure message, or pass through with
the authenticated user attached. -/
inductive AuthOutcome
  | nextPublic
  | missingToken
  | unauthorized (message : String)
  | nextAuth (user : AuthUser)
deriving Repr, DecidableEq

/-- The request fields authMiddleware reads. -/
structure Request where
  path : String
  authorization : Option String
deriving Repr, DecidableEq

/-- Character-level model of the JS startsWith check on the
authorization header: the first seven characters equal the Bearer
scheme prefix. -/
def isBearer (h : String) : Bool :=
  h.data.take 7 = ("Bearer ").data

/-- Embeds authMiddleware: public paths skip authentication; a missing
authorization header or one not starting with the Bearer scheme prefix
is rejected as missing token before any verification; otherwise the
token after the seven-character prefix is validated and either the user
is attached or the failure message is returned as unauthorized. -/
def authMiddleware (cfg : Config) (env : Env) (now : Int) (req : Request) :
    AuthOutcome :=
  if req.path ∈ PUBLIC_PATHS then .nextPublic
  else
    match req.authorization with
    | none => .missingToken
    | some h =>
      if isBearer h then
        match validateToken cfg env (h.drop 7) now with
        | .ok claims => .nextAuth ⟨claims.sub, claims.email, claims.scopes⟩
        | .error m => .unauthorized m
      else .missingToken

/-- The HTTP status each middleware outcome writes (none when the
request is passed along). -/
def httpStatus : AuthOutcome → Option Nat
  | .missingToken => some 401
  | .unauthorized _ => some 401
  | _ => none

/-- The error code string each rejecting outcome carries. -/
def errorCode : AuthOutcome → Option String
  | .missingToken => some "MISSING_TOKEN"
  | .unauthorized _ => some "UNAUTHORIZED"
  | _ => none

/-- An environment whose parser returns the given token for every raw
string; used to run the embedded service on concrete tokens. -/
def envFor (tok : Token) : Env :=
  { keysAvailable := true, parse := fun _ => tok }

/-- A structurally valid token with a verifying signature around the
given payload. -/
def mkTok (p : Payload) : Token :=
  { wellFormed := true, sigValid := true, payload := p }

/-- The outcome of the spec's Scope Enforcer. -/
inductive Outcome
  | allow
  | deny
deriving Repr, DecidableEq

/-- The authorization decision record of the spec's Scope Enforcer. -/
structure AuthorizationDecision where
  outcome : Outcome
  required : String
  reason : Option String
deriving Repr, DecidableEq

/-- Modelled from the spec: the Scope Enforcer of section 4.4 is
implemented in the backend agents, whose sources are not in the gateway
tree; its decision rule allows a required scope exactly when the
assertion holds it or some held scope implies it under the configured
hierarchy table, and denials carry the missing-scope reason. -/
def authorize (hier : String → String → Bool) (scopes : List String)
    (required : String) : AuthorizationDecision :=
  if scopes.contains required || scopes.any (fun s => hier s required) then
    { outcome := .allow, required := required, reason := none }
  else
    { outcome := .deny, required := required, reason := some "missing_scope" }

/-- Modelled from the spec: the default hierarchy table has no
implication between distinct scopes. -/
def defaultHierarchy : String → String → Bool := fun _ _ => false


theorem checkExp_ok_iff (p : Payload) (now : Int) (q : Payload) :
    checkExp p now = .ok q ↔ ((∀ e, p.exp = some e → now < e) ∧ q = p) := by
  unfold checkExp
  cases hexp : p.exp with
  | none => simp [eq_comm]
  | some e =>
    dsimp only
    split_ifs with h6
    · constructor
      · intro h; exact h.elim
      · rintro ⟨hf, rfl⟩
        have := hf e rfl
        omega
    · simp only [Except.ok.injEq]
      constructor
      · intro h
        exact ⟨fun e' he' => by cases he'; omega, h.symm⟩
      · rintro ⟨hf, rfl⟩; rfl

theorem verifyParsed_ok_iff (keys : Bool) (tok : Token)
    (issuer audience : String) (now : Int) (p : Payload) :
    verifyParsed keys tok issuer audience now = .ok p ↔
      (tok.wellFormed = true ∧ keys = true ∧ tok.sigValid = true ∧
       tok.payload.iss = some issuer ∧ tok.payload.aud = some audience ∧
       (∀ e, tok.payload.exp = some e → now < e) ∧ p = tok.payload) := by
  unfold verifyParsed
  split_ifs with h1 h2 h3 h4 h5
  · constructor
    · intro h; exact h.elim
    · rintro ⟨hwf, -⟩; rw [hwf] at h1; exact Bool.noConfusion h1
  · constructor
    · intro h; exact h.elim
    · rintro ⟨-, hk, -⟩; rw [hk] at h2; exact Bool.noConfusion h2
  · constructor
    · intro h; exact h.elim
    · rintro ⟨-, -, hs, -⟩; rw [hs] at h3; exact Bool.noConfusion h3
  · constructor
    · intro h; exact h.elim
    · rintro ⟨-, -, -, hiss, -⟩; exact h4 hiss
  · constructor
    · intro h; exact h.elim
    · rintro ⟨-, -, -, -, haud, -⟩; exact h5 haud
  · rw [checkExp_ok_iff]
    constructor
    · rintro ⟨hf, rfl⟩
      exact ⟨by simpa using h1, by simpa using h2, by simpa using h3,
        not_ne_iff.mp h4, not_ne_iff.mp h5, hf, rfl⟩
    · rintro ⟨-, -, -, -, -, hf, rfl⟩
      exact ⟨hf, rfl⟩

theorem validateToken_real (cfg : Config) (env : Env) (raw : String) (now : Int)
    (hp : cfg.descopeProjectId ≠ "") (hd : cfg.nodeEnv ≠ "development") :
    validateToken cfg env raw now =
      match verifyParsed env.keysAvailable (env.parse raw)
          (descopeIssuer cfg) cfg.descopeProjectId now with
      | .ok p => .ok (claimsOf p)
      | .error e => .error ("Token validation failed: " ++ errMsg e) := by
  unfold validateToken jwtVerify
  rw [if_neg (not_or.mpr ⟨hp, hd⟩)]


theorem splitSpace_joinSpace (l : List String) (hne : l ≠ [])
    (hel : ∀ s ∈ l, ' ' ∉ s.data) : splitSpace (joinSpace l) = l := by
  unfold splitSpace joinSpace
  have hx : ∀ c ∈ l.map String.data, ' ' ∉ c := by
    intro c hc
    rcases List.mem_map.mp hc with ⟨s, hs, rfl⟩
    exact hel s hs
  have hls : l.map String.data ≠ [] := by
    simpa using hne
  have hdata : (String.mk (List.intercalate [' '] (l.map String.data))).data =
      List.intercalate [' '] (l.map String.data) := rfl
  rw [hdata, List.splitOn_intercalate (l.map String.data) ' ' hx hls, List.map_map]
  have hid : (String.mk ∘ String.data) = id := by
    funext s
    cases s
    rfl
  rw [hid, List.map_id]

theorem joinSpace_ne_empty (l : List String) (hne : l ≠ [])
    (hel : ∀ s ∈ l, s ≠ "" ∧ ' ' ∉ s.data) : joinSpace l ≠ "" := by
  intro h
  have h1 : splitSpace (joinSpace l) = l :=
    splitSpace_joinSpace l hne (fun s hs => (hel s hs).2)
  rw [h] at h1
  have h2 : splitSpace "" = [""] := rfl
  rw [h2] at h1
  have hmem : "" ∈ l := by
    rw [← h1]
    simp
  exact (hel "" hmem).1 rfl

theorem validateToken_mkTok_ok (cfg : Config) (p : Payload) (raw : String) (now : Int)
    (hp : cfg.descopeProjectId ≠ "") (hd : cfg.nodeEnv ≠ "development")
    (hiss : p.iss = some (descopeIssuer cfg))
    (haud : p.aud = some cfg.descopeProjectId)
    (hexp : ∀ e, p.exp = some e → now < e) :
    validateToken cfg (envFor (mkTok p)) raw now = .ok (claimsOf p) := by
  rw [validateToken_real cfg (envFor (mkTok p)) raw now hp hd]
  have hv : verifyParsed (envFor (mkTok p)).keysAvailable ((envFor (mkTok p)).parse raw)
      (descopeIssuer cfg) cfg.descopeProjectId now = .ok p :=
    (verifyParsed_ok_iff _ _ _ _ _ _).mpr ⟨rfl, rfl, rfl, hiss, haud, hexp, rfl⟩
  rw [hv]


/-- Claim C1: the claim states that for every posture other than
development, an unset trusted issuer (empty Descope project id) makes
startup fail and validateToken never returns mock claims.  The code
refutes it: with nodeEnv set to staging and an empty project id the
startup validation does not fire (it only checks the production
posture) and validateToken returns the mock claims for an arbitrary
token, exactly the silent bypass the spec forbids. -/
theorem staging_unset_issuer_silently_bypasses :
    startupConfigFatal ⟨"", "staging"⟩ = false ∧
    validateToken ⟨"", "staging"⟩ (envFor (mkTok {})) "header.payload.sig" 1000 =
      .ok (getMockClaims 1000) :=
  ⟨rfl, rfl⟩

/-- Claim C2, counterexample: a key-resolution outage with no cached
entry is reported to the caller as a 401 unauthorized outcome, not as
a transient 5xx-class one: with the JWKS fetch failing, the middleware
answers the unauthorized body whose status is 401. -/
theorem key_outage_reported_as_401 :
    authMiddleware ⟨"proj", "production"⟩
        ⟨false, fun _ => mkTok { iss := some "https://api.descope.com/proj",
                                 aud := some "proj", exp := some 2000 }⟩ 1000
        ⟨"/api/v1/emails", some "Bearer tok"⟩ =
      .unauthorized ("Token validation failed: " ++ errMsg .keyFetchFailed) ∧
    httpStatus (.unauthorized ("Token validation failed: " ++ errMsg .keyFetchFailed)) =
      some 401 :=
  ⟨rfl, rfl⟩

/-- Claim C2, amended: in a real-verification configuration a key-fetch
failure (no cached entry exists in the code: the JWKS client holds no
fallback cache) is reported as the 401 unauthorized outcome carrying
the key-fetch failure message — not a 5xx-class outcome — and the
request is denied, never forwarded to business logic. -/
theorem key_outage_always_denied (cfg : Config) (env : Env) (now : Int)
    (req : Request) (h : String)
    (hp : cfg.descopeProjectId ≠ "") (hd : cfg.nodeEnv ≠ "development")
    (hkeys : env.keysAvailable = false)
    (hpath : req.path ∉ PUBLIC_PATHS)
    (hh : req.authorization = some h)
    (hb : isBearer h = true)
    (hwf : (env.parse (h.drop 7)).wellFormed = true) :
    authMiddleware cfg env now req =
      .unauthorized ("Token validation failed: " ++ errMsg .keyFetchFailed) ∧
    httpStatus (authMiddleware cfg env now req) = some 401 := by
  have hval : validateToken cfg env (h.drop 7) now =
      .error ("Token validation failed: " ++ errMsg .keyFetchFailed) := by
    rw [validateToken_real cfg env (h.drop 7) now hp hd]
    have hv : verifyParsed env.keysAvailable (env.parse (h.drop 7))
        (descopeIssuer cfg) cfg.descopeProjectId now = .error .keyFetchFailed := by
      unfold verifyParsed
      rw [if_neg (by simp [hwf]), if_pos hkeys]
    rw [hv]
  have hout : authMiddleware cfg env now req =
      .unauthorized ("Token validation failed: " ++ errMsg .keyFetchFailed) := by
    unfold authMiddleware
    rw [if_neg hpath, hh]
    dsimp only
    rw [if_pos hb, hval]
  exact ⟨hout, by rw [hout]; rfl⟩

/-- Claim C2, witness: the amended theorem applied at a concrete
request against an environment whose key fetch fails. -/
theorem key_outage_always_denied_witness :
    authMiddleware ⟨"proj", "production"⟩ ⟨false, fun _ => mkTok {}⟩ 5
        ⟨"/api/v1/emails", some "Bearer tok"⟩ =
      .unauthorized ("Token validation failed: " ++ errMsg .keyFetchFailed) ∧
    httpStatus (authMiddleware ⟨"proj", "production"⟩ ⟨false, fun _ => mkTok {}⟩ 5
        ⟨"/api/v1/emails", some "Bearer tok"⟩) = some 401 :=
  key_outage_always_denied ⟨"proj", "production"⟩ ⟨false, fun _ => mkTok {}⟩ 5
    ⟨"/api/v1/emails", some "Bearer tok"⟩ "Bearer tok"
    (by decide) (by decide) rfl (by decide) rfl (by decide) rfl

/-- Claim C4, counterexample: the claim quantifies over every
well-formed token, but in the development bypass configuration a
well-formed, validly-signed token whose expiry 50 lies before the
clock 100 is not denied with expired — validateToken returns the mock
claims. -/
theorem expired_token_allowed_in_dev_bypass :
    validateToken ⟨"proj", "development"⟩
        (envFor (mkTok { sub := some "user_1", iss := some "intelliflow-dev",
                         exp := some 50 })) "tok" 100 =
      .ok (getMockClaims 100) :=
  rfl

/-- Claim C4, amended: in a configuration where real verification runs
(project id set, posture not development), every token whose expiry is
at or before now is denied — validateToken never returns claims — and
when the envelope, key fetch, signature, issuer and audience checks all
pass, the denial reason is the expired message; in the bypass
configuration expired tokens are instead answered with mock claims. -/
theorem expired_always_denied_in_real_config (cfg : Config) (env : Env)
    (raw : String) (now e : Int)
    (hp : cfg.descopeProjectId ≠ "") (hd : cfg.nodeEnv ≠ "development")
    (hexp : (env.parse raw).payload.exp = some e) (he : e ≤ now) :
    (∀ c, validateToken cfg env raw now ≠ .ok c) ∧
    ((env.parse raw).wellFormed = true → env.keysAvailable = true →
      (env.parse raw).sigValid = true →
      (env.parse raw).payload.iss = some (descopeIssuer cfg) →
      (env.parse raw).payload.aud = some cfg.descopeProjectId →
      validateToken cfg env raw now =
        .error ("Token validation failed: " ++ errMsg .expired)) := by
  constructor
  · intro c hc
    rw [validateToken_real cfg env raw now hp hd] at hc
    cases hv : verifyParsed env.keysAvailable (env.parse raw)
        (descopeIssuer cfg) cfg.descopeProjectId now with
    | error err =>
      rw [hv] at hc
      exact Except.noConfusion hc
    | ok p =>
      have hf := ((verifyParsed_ok_iff _ _ _ _ _ _).mp hv).2.2.2.2.2.1
      have := hf e hexp
      omega
  · intro hwf hk hsig hiss haud
    rw [validateToken_real cfg env raw now hp hd]
    have hv : verifyParsed env.keysAvailable (env.parse raw)
        (descopeIssuer cfg) cfg.descopeProjectId now = .error .expired := by
      unfold verifyParsed
      rw [if_neg (by simp [hwf]), if_neg (by simp [hk]), if_neg (by simp [hsig]),
        if_neg (not_ne_iff.mpr hiss), if_neg (not_ne_iff.mpr haud)]
      unfold checkExp
      rw [hexp]
      dsimp only
      rw [if_pos he]
    rw [hv]

/-- Claim C4, witness: the amended theorem applied to a concrete
expired token under a real-verification configuration. -/
theorem expired_always_denied_witness :
    validateToken ⟨"proj", "production"⟩
        (envFor (mkTok { iss := some "https://api.descope.com/proj",
                         aud := some "proj", exp := some 50 })) "tok" 100 =
      .error ("Token validation failed: " ++ errMsg .expired) :=
  (expired_always_denied_in_real_config ⟨"proj", "production"⟩
      (envFor (mkTok { iss := some "https://api.descope.com/proj",
                       aud := some "proj", exp := some 50 })) "tok" 100 50
      (by decide) (by decide) rfl (by decide)).2 rfl rfl rfl rfl rfl


/-- Claim C3: the Scope Enforcer, modelled from the spec because it is
implemented in the backend agents outside the gateway sources, allows
a required scope iff that scope is present exactly in the held scope
set or some held scope implies it under the configured hierarchy
table, and on the scenario token holding the email read and summarize
scopes it allows the email read scope and denies the calendar write
scope with reason missing_scope. -/
theorem authorize_iff_and_scenario :
    (∀ (hier : String → String → Bool) (scopes : List String) (required : String),
      (authorize hier scopes required).outcome = .allow ↔
        (required ∈ scopes ∨ ∃ s ∈ scopes, hier s required = true)) ∧
    authorize defaultHierarchy ["email.read", "email.summarize"] "email.read" =
      { outcome := .allow, required := "email.read", reason := none } ∧
    authorize defaultHierarchy ["email.read", "email.summarize"] "calendar.write" =
      { outcome := .deny, required := "calendar.write", reason := some "missing_scope" } := by
  refine ⟨?_, rfl, rfl⟩
  intro hier scopes required
  unfold authorize
  split_ifs with h
  · simp only [true_iff]
    have h' : scopes.contains required = true ∨
        (scopes.any fun s => hier s required) = true := by
      simpa using h
    rcases h' with hc | ha
    · exact Or.inl (List.elem_iff.mp hc)
    · exact Or.inr (by simpa using List.any_eq_true.mp ha)
  · simp only [false_iff]
    intro hr
    apply h
    rcases hr with hm | ⟨s, hs, himp⟩
    · simp only [Bool.or_eq_true]
      exact Or.inl (List.elem_iff.mpr hm)
    · simp only [Bool.or_eq_true]
      exact Or.inr (List.any_eq_true.mpr ⟨s, hs, himp⟩)

/-- Claim C5, counterexample: two payloads carrying the same set of
scope values — the array form with a duplicated entry and the string
form with the single entry — do not yield equal scope lists from
validateToken: the array is taken verbatim with no de-duplication. -/
theorem duplicate_scopes_not_deduplicated :
    (validateToken ⟨"proj", "production"⟩
        (envFor (mkTok { iss := some "https://api.descope.com/proj",
                         aud := some "proj", exp := some 2000,
                         scopes := some ["email.read", "email.read"] })) "tok"
        1000).map TokenClaims.scopes = .ok ["email.read", "email.read"] ∧
    (validateToken ⟨"proj", "production"⟩
        (envFor (mkTok { iss := some "https://api.descope.com/proj",
                         aud := some "proj", exp := some 2000,
                         scope := some "email.read" })) "tok"
        1000).map TokenClaims.scopes = .ok ["email.read"] ∧
    (["email.read", "email.read"] : List String) ≠ ["email.read"] :=
  ⟨rfl, rfl, by decide⟩

/-- Claim C5, amended: the three scope encodings — array under scopes,
space-delimited string under scope, array under the permissions alias —
yield the same scope list from validateToken whenever they carry the
same sequence of nonempty, space-free scope values; no de-duplication
is performed, so payloads carrying equal sets with different
multiplicities or orders may differ. -/
theorem scope_encodings_agree_on_sequences (cfg : Config) (p0 : Payload)
    (now e : Int) (l : List String)
    (hp : cfg.descopeProjectId ≠ "") (hd : cfg.nodeEnv ≠ "development")
    (hiss : p0.iss = some (descopeIssuer cfg))
    (haud : p0.aud = some cfg.descopeProjectId)
    (hexp : p0.exp = some e) (hnow : now < e)
    (hne : l ≠ []) (hel : ∀ s ∈ l, s ≠ "" ∧ ' ' ∉ s.data) :
    (validateToken cfg (envFor (mkTok
        { p0 with scopes := some l, scope := none, permissions := none }))
        "tok" now).map TokenClaims.scopes = .ok l ∧
    (validateToken cfg (envFor (mkTok
        { p0 with scopes := none, scope := some (joinSpace l), permissions := none }))
        "tok" now).map TokenClaims.scopes = .ok l ∧
    (validateToken cfg (envFor (mkTok
        { p0 with scopes := none, scope := none, permissions := some l }))
        "tok" now).map TokenClaims.scopes = .ok l := by
  have hexpf : ∀ q : Payload, q.exp = some e → ∀ e', q.exp = some e' → now < e' := by
    intro q hq e' he'
    rw [hq] at he'
    cases he'
    exact hnow
  refine ⟨?_, ?_, ?_⟩
  · rw [validateToken_mkTok_ok cfg
      { p0 with scopes := some l, scope := none, permissions := none }
      "tok" now hp hd hiss haud (hexpf _ hexp)]
    rfl
  · rw [validateToken_mkTok_ok cfg
      { p0 with scopes := none, scope := some (joinSpace l), permissions := none }
      "tok" now hp hd hiss haud (hexpf _ hexp)]
    have hs : extractScopes
        { p0 with scopes := none, scope := some (joinSpace l), permissions := none } = l := by
      unfold extractScopes
      dsimp only
      rw [if_neg (joinSpace_ne_empty l hne hel)]
      exact splitSpace_joinSpace l hne (fun s hs => (hel s hs).2)
    exact congrArg Except.ok hs
  · rw [validateToken_mkTok_ok cfg
      { p0 with scopes := none, scope := none, permissions := some l }
      "tok" now hp hd hiss haud (hexpf _ hexp)]
    rfl

/-- Claim C5, witness: the amended theorem applied to the scenario
scope values under a concrete real-verification configuration. -/
theorem scope_encodings_agree_witness :
    (validateToken ⟨"proj", "production"⟩ (envFor (mkTok
        { iss := some "https://api.descope.com/proj", aud := some "proj",
          exp := some 2000, scopes := some ["email.read", "email.summarize"],
          scope := none, permissions := none }))
        "tok" 1000).map TokenClaims.scopes = .ok ["email.read", "email.summarize"] ∧
    (validateToken ⟨"proj", "production"⟩ (envFor (mkTok
        { iss := some "https://api.descope.com/proj", aud := some "proj",
          exp := some 2000, scopes := none,
          scope := some (joinSpace ["email.read", "email.summarize"]),
          permissions := none }))
        "tok" 1000).map TokenClaims.scopes = .ok ["email.read", "email.summarize"] ∧
    (validateToken ⟨"proj", "production"⟩ (envFor (mkTok
        { iss := some "https://api.descope.com/proj", aud := some "proj",
          exp := some 2000, scopes := none, scope := none,
          permissions := some ["email.read", "email.summarize"] }))
        "tok" 1000).map TokenClaims.scopes = .ok ["email.read", "email.summarize"] :=
  scope_encodings_agree_on_sequences ⟨"proj", "production"⟩
    { iss := some "https://api.descope.com/proj", aud := some "proj", exp := some 2000 }
    1000 2000 ["email.read", "email.summarize"]
    (by decide) (by decide) rfl rfl rfl (by decide) (by decide) (by decide)


/-- Claim C6, counterexample: a token whose payload has no subject at
all passes verification and is decoded into a claim set with the
defaulted empty subject, instead of failing with a DecodeError. -/
theorem missing_subject_decoded_with_empty_sub :
    validateToken ⟨"proj", "production"⟩
        (envFor (mkTok { iss := some "https://api.descope.com/proj",
                         aud := some "proj", exp := some 2000 })) "tok" 1000 =
      .ok { sub := "", email := none, name := none, scopes := [], exp := 2000,
            iat := 0, iss := "https://api.descope.com/proj", aud := some "proj" } :=
  rfl

/-- Claim C6, amended: a malformed envelope is rejected, and a missing
issuer claim is rejected by the issuer check; but missing subject and
missing expiry are not decode errors — the subject defaults to the
empty string and the expiry to zero in the returned claims, and scope
values are never parsed as resource-action pairs. -/
theorem decode_defaults_missing_claims (cfg : Config) (env₁ env₂ env₃ : Env)
    (raw : String) (now : Int)
    (hp : cfg.descopeProjectId ≠ "") (hd : cfg.nodeEnv ≠ "development")
    (h1 : (env₁.parse raw).wellFormed = false)
    (h2wf : (env₂.parse raw).wellFormed = true) (h2k : env₂.keysAvailable = true)
    (h2sig : (env₂.parse raw).sigValid = true)
    (h2iss : (env₂.parse raw).payload.iss = none)
    (h3wf : (env₃.parse raw).wellFormed = true) (h3k : env₃.keysAvailable = true)
    (h3sig : (env₃.parse raw).sigValid = true)
    (h3iss : (env₃.parse raw).payload.iss = some (descopeIssuer cfg))
    (h3aud : (env₃.parse raw).payload.aud = some cfg.descopeProjectId)
    (h3exp : (env₃.parse raw).payload.exp = none)
    (h3sub : (env₃.parse raw).payload.sub = none) :
    validateToken cfg env₁ raw now =
      .error ("Token validation failed: " ++ errMsg .malformedToken) ∧
    validateToken cfg env₂ raw now =
      .error ("Token validation failed: " ++ errMsg .issuerMismatch) ∧
    (validateToken cfg env₃ raw now = .ok (claimsOf (env₃.parse raw).payload) ∧
     (claimsOf (env₃.parse raw).payload).sub = "" ∧
     (claimsOf (env₃.parse raw).payload).exp = 0) := by
  refine ⟨?_, ?_, ?_, ?_, ?_⟩
  · rw [validateToken_real cfg env₁ raw now hp hd]
    have hv : verifyParsed env₁.keysAvailable (env₁.parse raw)
        (descopeIssuer cfg) cfg.descopeProjectId now = .error .malformedToken := by
      unfold verifyParsed
      rw [if_pos h1]
    rw [hv]
  · rw [validateToken_real cfg env₂ raw now hp hd]
    have hv : verifyParsed env₂.keysAvailable (env₂.parse raw)
        (descopeIssuer cfg) cfg.descopeProjectId now = .error .issuerMismatch := by
      unfold verifyParsed
      rw [if_neg (by simp [h2wf]), if_neg (by simp [h2k]), if_neg (by simp [h2sig]),
        if_pos (by simp [h2iss])]
    rw [hv]
  · rw [validateToken_real cfg env₃ raw now hp hd]
    have hv : verifyParsed env₃.keysAvailable (env₃.parse raw)
        (descopeIssuer cfg) cfg.descopeProjectId now = .ok (env₃.parse raw).payload :=
      (verifyParsed_ok_iff _ _ _ _ _ _).mpr
        ⟨h3wf, h3k, h3sig, h3iss, h3aud,
         (fun e' he' => by rw [h3exp] at he'; cases he'), rfl⟩
    rw [hv]
  · show ((env₃.parse raw).payload.sub).getD "" = ""
    rw [h3sub]
    rfl
  · show ((env₃.parse raw).payload.exp).getD 0 = 0
    rw [h3exp]
    rfl

/-- Claim C6, witness: the amended theorem applied to three concrete
tokens — a malformed one, one missing its issuer, and one missing both
subject and expiry. -/
theorem decode_defaults_missing_claims_witness :
    validateToken ⟨"proj", "production"⟩ ⟨true, fun _ => ⟨false, true, {}⟩⟩ "tok" 7 =
      .error ("Token validation failed: " ++ errMsg .malformedToken) ∧
    validateToken ⟨"proj", "production"⟩ (envFor (mkTok { exp := some 99 })) "tok" 7 =
      .error ("Token validation failed: " ++ errMsg .issuerMismatch) ∧
    (validateToken ⟨"proj", "production"⟩
        (envFor (mkTok { iss := some "https://api.descope.com/proj",
                         aud := some "proj" })) "tok" 7 =
      .ok (claimsOf { iss := some "https://api.descope.com/proj",
                      aud := some "proj" }) ∧
     (claimsOf ({ iss := some "https://api.descope.com/proj",
                  aud := some "proj" } : Payload)).sub = "" ∧
     (claimsOf ({ iss := some "https://api.descope.com/proj",
                  aud := some "proj" } : Payload)).exp = 0) :=
  decode_defaults_missing_claims ⟨"proj", "production"⟩
    ⟨true, fun _ => ⟨false, true, {}⟩⟩
    (envFor (mkTok { exp := some 99 }))
    (envFor (mkTok { iss := some "https://api.descope.com/proj", aud := some "proj" }))
    "tok" 7 (by decide) (by decide) rfl rfl rfl rfl rfl rfl rfl rfl rfl rfl rfl rfl

/-- Claim C7: a protected request whose authorization header is absent
or does not carry the Bearer scheme is answered with the generic
missing-token outcome for every verification environment — the token
verifier can never run — and that outcome is distinct from the
unauthorized outcome that verification failures produce. -/
theorem missing_bearer_rejected_before_verifier (cfg : Config) (env : Env)
    (now : Int) (req : Request)
    (hpath : req.path ∉ PUBLIC_PATHS)
    (hcred : req.authorization = none ∨
      ∃ h, req.authorization = some h ∧ isBearer h = false) :
    authMiddleware cfg env now req = .missingToken ∧
    errorCode (authMiddleware cfg env now req) = some "MISSING_TOKEN" ∧
    (∀ m, AuthOutcome.missingToken ≠ AuthOutcome.unauthorized m) := by
  have hout : authMiddleware cfg env now req = .missingToken := by
    unfold authMiddleware
    rw [if_neg hpath]
    rcases hcred with hc | ⟨h, hc, hb⟩
    · rw [hc]
    · rw [hc]
      dsimp only
      rw [if_neg (by simp [hb])]
  exact ⟨hout, by rw [hout]; rfl, fun m hm => AuthOutcome.noConfusion hm⟩

/-- Claim C7, witness: the theorem applied to a concrete request with
a non-Bearer scheme. -/
theorem missing_bearer_rejected_witness :
    authMiddleware ⟨"proj", "production"⟩ (envFor (mkTok {})) 0
        ⟨"/api/v1/emails", some "Basic abc"⟩ = .missingToken ∧
    errorCode (authMiddleware ⟨"proj", "production"⟩ (envFor (mkTok {})) 0
        ⟨"/api/v1/emails", some "Basic abc"⟩) = some "MISSING_TOKEN" ∧
    AuthOutcome.missingToken ≠
      AuthOutcome.unauthorized ("Token validation failed: " ++ errMsg .keyFetchFailed) := by
  have h := missing_bearer_rejected_before_verifier ⟨"proj", "production"⟩
    (envFor (mkTok {})) 0 ⟨"/api/v1/emails", some "Basic abc"⟩
    (by decide) (Or.inr ⟨"Basic abc", rfl, by decide⟩)
  exact ⟨h.1, h.2.1, h.2.2 _⟩

/-- Claim C8: verification is idempotent and side-effect-free on the
claim set — the embedding is a pure function that never mutates the
token — and any two successful validations of the same raw token under
the same configuration and environment, at possibly different clock
readings, agree on the principal id and the scope set. -/
theorem validateToken_idempotent (cfg : Config) (env : Env) (raw : String)
    (t₁ t₂ : Int) (c₁ c₂ : TokenClaims)
    (h₁ : validateToken cfg env raw t₁ = .ok c₁)
    (h₂ : validateToken cfg env raw t₂ = .ok c₂) :
    c₁.sub = c₂.sub ∧ c₁.scopes = c₂.scopes := by
  by_cases hb : cfg.descopeProjectId = "" ∨ cfg.nodeEnv = "development"
  · unfold validateToken at h₁ h₂
    rw [if_pos hb] at h₁ h₂
    injection h₁ with h₁'
    injection h₂ with h₂'
    rw [← h₁', ← h₂']
    exact ⟨rfl, rfl⟩
  · push_neg at hb
    rw [validateToken_real cfg env raw t₁ hb.1 hb.2] at h₁
    rw [validateToken_real cfg env raw t₂ hb.1 hb.2] at h₂
    cases hv₁ : verifyParsed env.keysAvailable (env.parse raw)
        (descopeIssuer cfg) cfg.descopeProjectId t₁ with
    | error err =>
      rw [hv₁] at h₁
      exact Except.noConfusion h₁
    | ok p₁ =>
      rw [hv₁] at h₁
      cases hv₂ : verifyParsed env.keysAvailable (env.parse raw)
          (descopeIssuer cfg) cfg.descopeProjectId t₂ with
      | error err =>
        rw [hv₂] at h₂
        exact Except.noConfusion h₂
      | ok p₂ =>
        rw [hv₂] at h₂
        injection h₁ with h₁'
        injection h₂ with h₂'
        have e₁ : p₁ = (env.parse raw).payload :=
          ((verifyParsed_ok_iff _ _ _ _ _ _).mp hv₁).2.2.2.2.2.2
        have e₂ : p₂ = (env.parse raw).payload :=
          ((verifyParsed_ok_iff _ _ _ _ _ _).mp hv₂).2.2.2.2.2.2
        rw [← h₁', ← h₂', e₁, e₂]
        exact ⟨rfl, rfl⟩

/-- Claim C8, witness: the theorem applied to one token validated at
two different clock readings in the bypass configuration, where the
two returned claim records differ in their timestamps but agree on
principal and scopes. -/
theorem validateToken_idempotent_witness :
    (getMockClaims 5).sub = (getMockClaims 9).sub ∧
    (getMockClaims 5).scopes = (getMockClaims 9).scopes :=
  validateToken_idempotent ⟨"", "staging"⟩ (envFor (mkTok {})) "tok" 5 9
    (getMockClaims 5) (getMockClaims 9) rfl rfl

/-- Claim C10: a token that passes signature and claim verification but
carries none of the scopes, scope, or permissions fields authenticates
successfully with an empty scope list, and the modelled Scope Enforcer
then denies every required scope on it with reason missing_scope. -/
theorem scopeless_token_authenticates (cfg : Config) (env : Env) (raw : String)
    (now e : Int)
    (hp : cfg.descopeProjectId ≠ "") (hd : cfg.nodeEnv ≠ "development")
    (hwf : (env.parse raw).wellFormed = true) (hk : env.keysAvailable = true)
    (hsig : (env.parse raw).sigValid = true)
    (hiss : (env.parse raw).payload.iss = some (descopeIssuer cfg))
    (haud : (env.parse raw).payload.aud = some cfg.descopeProjectId)
    (hexp : (env.parse raw).payload.exp = some e) (hnow : now < e)
    (hs1 : (env.parse raw).payload.scopes = none)
    (hs2 : (env.parse raw).payload.scope = none)
    (hs3 : (env.parse raw).payload.permissions = none) :
    validateToken cfg env raw now = .ok (claimsOf (env.parse raw).payload) ∧
    (claimsOf (env.parse raw).payload).scopes = [] ∧
    ∀ required, authorize defaultHierarchy (claimsOf (env.parse raw).payload).scopes required =
      { outcome := .deny, required := required, reason := some "missing_scope" } := by
  have hscopes : (claimsOf (env.parse raw).payload).scopes = [] := by
    show extractScopes (env.parse raw).payload = []
    unfold extractScopes
    rw [hs1, hs2, hs3]
  have hok : validateToken cfg env raw now = .ok (claimsOf (env.parse raw).payload) := by
    rw [validateToken_real cfg env raw now hp hd]
    have hv : verifyParsed env.keysAvailable (env.parse raw)
        (descopeIssuer cfg) cfg.descopeProjectId now = .ok (env.parse raw).payload :=
      (verifyParsed_ok_iff _ _ _ _ _ _).mpr
        ⟨hwf, hk, hsig, hiss, haud,
         (fun e' he' => by rw [hexp] at he'; cases he'; exact hnow), rfl⟩
    rw [hv]
  refine ⟨hok, hscopes, fun required => ?_⟩
  rw [hscopes]
  rfl

/-- Claim C10, witness: the theorem applied to a concrete scope-less
token, with the enforcement conclusion instantiated at the calendar
write scope. -/
theorem scopeless_token_authenticates_witness :
    validateToken ⟨"proj", "production"⟩
        (envFor (mkTok { iss := some "https://api.descope.com/proj",
                         aud := some "proj", exp := some 2000 })) "tok" 1000 =
      .ok (claimsOf { iss := some "https://api.descope.com/proj",
                      aud := some "proj", exp := some 2000 }) ∧
    (claimsOf ({ iss := some "https://api.descope.com/proj", aud := some "proj",
                 exp := some 2000 } : Payload)).scopes = [] ∧
    authorize defaultHierarchy
        (claimsOf ({ iss := some "https://api.descope.com/proj", aud := some "proj",
                     exp := some 2000 } : Payload)).scopes "calendar.write" =
      { outcome := .deny, required := "calendar.write", reason := some "missing_scope" } := by
  have h := scopeless_token_authenticates ⟨"proj", "production"⟩
    (envFor (mkTok { iss := some "https://api.descope.com/proj",
                     aud := some "proj", exp := some 2000 })) "tok" 1000 2000
    (by decide) (by decide) rfl rfl rfl rfl rfl rfl (by decide) rfl rfl rfl
  exact ⟨h.1, h.2.1, h.2.2 "calendar.write"⟩

end IntelliFlow
